import Mathlib

/-!
Verification development for the VxWorks keyboard handler
(src/platformsupport/input/vxkeyboard/qvxkeyboardhandler.cpp).

The handler state, the keymap lookup, the key-translation state machine
(QVxKeyboardHandler::processKeycode), the keymap loader
(QVxKeyboardHandler::loadKeymap / unloadKeymap) are embedded as pure
Lean functions over explicit state.  Machine integers (quint8, quint16,
quint32) are modelled as Nat; the bitwise operations of the source are
translated to Nat bitwise operations, with the quint8 truncation of the
source written out explicitly where the source casts.
-/

namespace VxKbd

/-- Modelled from the spec: the record flag bits of the keymap data model
(bitset with IsLetter, IsModifier, IsSystem, IsDead).  The numeric values
live in the private header qvxkeyboardhandler_p.h, which is not part of
the sources here; the claims depend only on the bits being distinct. -/
def IsDead : Nat := 0x01

/-- Modelled from the spec: flag bit, see IsDead. -/
def IsAutoRepeatFlag : Nat := 0x02

/-- Modelled from the spec: flag bit, see IsDead. -/
def IsSystem : Nat := 0x04

/-- Modelled from the spec: flag bit, see IsDead. -/
def IsModifier : Nat := 0x08

/-- Modelled from the spec: flag bit, see IsDead. -/
def IsLetter : Nat := 0x10

/-- Modelled from the spec: modifier byte bits (Shift). -/
def ModShift : Nat := 0x01

/-- Modelled from the spec: modifier byte bits (AltGr equivalent). -/
def ModAltGr : Nat := 0x02

/-- Modelled from the spec: modifier byte bits (Control). -/
def ModControl : Nat := 0x04

/-- Modelled from the spec: modifier byte bits (Alt). -/
def ModAlt : Nat := 0x08

/-- Modelled from the spec: modifier byte bits (left Shift). -/
def ModShiftL : Nat := 0x10

/-- Modelled from the spec: modifier byte bits (right Shift). -/
def ModShiftR : Nat := 0x20

/-- Modelled from the spec: modifier byte bits (left Control). -/
def ModCtrlL : Nat := 0x40

/-- Modelled from the spec: modifier byte bits (right Control). -/
def ModCtrlR : Nat := 0x80

/-- Modelled from the spec: special value of a system record (reboot). -/
def SystemReboot : Nat := 0x01

/-- Modelled from the spec: special value of a system record (zap). -/
def SystemZap : Nat := 0x02

/-- Modelled from the spec: special value (previous console). -/
def SystemConsolePrevious : Nat := 0x03

/-- Modelled from the spec: special value (next console). -/
def SystemConsoleNext : Nat := 0x04

/-- Modelled from the spec: first switch-console special value. -/
def SystemConsoleFirst : Nat := 0x10

/-- Modelled from the spec: last switch-console special value. -/
def SystemConsoleLast : Nat := 0x1f

/-- Modelled from the spec: mask applied to a switch-console special value. -/
def SystemConsoleMask : Nat := 0x0f

/-- Modelled from the spec: mask of the switch-console action range. -/
def SwitchConsoleMask : Nat := 0x7f

/-- Modelled from the spec: the fixed file-format magic constant of the
binary keymap file. -/
def FileMagic : Nat := 0x514d4150

/-- Qt key code constants used by the handler (public Qt API values). -/
def Key_Tab : Nat := 0x01000001

/-- Qt key code constant. -/
def Key_Backtab : Nat := 0x01000002

/-- Qt key code constant. -/
def Key_Insert : Nat := 0x01000006

/-- Qt key code constant. -/
def Key_Delete : Nat := 0x01000007

/-- Qt key code constant. -/
def Key_Clear : Nat := 0x0100000b

/-- Qt key code constant. -/
def Key_Home : Nat := 0x01000010

/-- Qt key code constant. -/
def Key_End : Nat := 0x01000011

/-- Qt key code constant. -/
def Key_Left : Nat := 0x01000012

/-- Qt key code constant. -/
def Key_Up : Nat := 0x01000013

/-- Qt key code constant. -/
def Key_Right : Nat := 0x01000014

/-- Qt key code constant. -/
def Key_Down : Nat := 0x01000015

/-- Qt key code constant. -/
def Key_PageUp : Nat := 0x01000016

/-- Qt key code constant. -/
def Key_PageDown : Nat := 0x01000017

/-- Qt key code constant. -/
def Key_CapsLock : Nat := 0x01000024

/-- Qt key code constant. -/
def Key_NumLock : Nat := 0x01000025

/-- Qt key code constant. -/
def Key_ScrollLock : Nat := 0x01000026

/-- Qt key code constant (the Compose / Multi key). -/
def Key_Multi_key : Nat := 0x01001120

/-- Qt key code constant (unknown key). -/
def Key_unknown : Nat := 0x01ffffff

/-- Qt keyboard modifier flag. -/
def ShiftModifier : Nat := 0x02000000

/-- Qt keyboard modifier flag. -/
def ControlModifier : Nat := 0x04000000

/-- Qt keyboard modifier flag. -/
def AltModifier : Nat := 0x08000000

/-- Qt keyboard modifier flag. -/
def MetaModifier : Nat := 0x10000000

/-- Qt keyboard modifier flag. -/
def KeypadModifier : Nat := 0x20000000

/-- One keymap record, QKeyboardMap::Mapping of the source: scancode,
unicode (0xffff meaning no character), Qt-like key code, modifier mask,
flag bits and the special value. -/
structure Mapping where
  keycode : Nat
  unicode : Nat
  qtcode : Nat
  modifiers : Nat
  flags : Nat
  special : Nat
  deriving DecidableEq

/-- One compose record, QKeyboardMap::Composing of the source. -/
structure Composing where
  first : Nat
  second : Nat
  result : Nat
  deriving DecidableEq

/-- The mutable handler state of QVxKeyboardHandler: live modifier byte,
the three lock flags m_locks[0..2] (CapsLock, NumLock, ScrollLock),
compose stage, pending dead unicode, language lock, the two configuration
flags and the two active tables. -/
structure KbdState where
  m_modifiers : Nat
  m_locks0 : Nat
  m_locks1 : Nat
  m_locks2 : Nat
  m_composing : Nat
  m_dead_unicode : Nat
  m_langLock : Nat
  m_no_zap : Bool
  m_do_compose : Bool
  m_keymap : List Mapping
  m_keycompose : List Composing
  deriving DecidableEq

/-- m_locks[i] read access of the source (index is qtcode - Key_CapsLock,
always 0, 1 or 2 at the call sites). -/
def getLock (st : KbdState) : Nat → Nat
  | 0 => st.m_locks0
  | 1 => st.m_locks1
  | _ => st.m_locks2

/-- m_locks[i] write access of the source. -/
def setLock (st : KbdState) (i v : Nat) : KbdState :=
  match i with
  | 0 => { st with m_locks0 := v }
  | 1 => { st with m_locks1 := v }
  | _ => { st with m_locks2 := v }

/-- The result enum QKeycodeAction returned by processKeycode.  The
switch-console value carries the masked console index computed by the
source. -/
inductive QKeycodeAction where
  | None
  | CapsLockOn
  | CapsLockOff
  | NumLockOn
  | NumLockOff
  | ScrollLockOn
  | ScrollLockOff
  | Reboot
  | PreviousConsole
  | NextConsole
  | SwitchConsole (n : Nat)
  deriving DecidableEq

/-- The data passed to processKeyEvent, i.e. the one key event forwarded
to the windowing layer: native scancode, unicode (0xffff meaning no
character, see processKeyEvent), final Qt key code, reported modifier
bits, press flag and autorepeat flag. -/
structure KeyEvent where
  nativecode : Nat
  unicode : Nat
  qtcode : Nat
  qtmods : Nat
  isPress : Bool
  autoRepeat : Bool
  deriving DecidableEq

/-- Full outcome of one processKeycode call: the returned QKeycodeAction,
the new handler state, the key event forwarded via processKeyEvent when
any, and whether qApp->quit() was requested (zap). -/
structure ProcResult where
  action : QKeycodeAction
  state : KbdState
  event : Option KeyEvent
  quit : Bool
  deriving DecidableEq

/-- Modelled from the spec: QVxKeyboardHandler::toQtModifiers, declared in
the private header (not among the sources): the live-modifier byte mapped
to Qt modifier bits (Shift, Control, Alt). -/
def toQtModifiers (mbyte : Nat) : Nat :=
  (if mbyte &&& (ModShift ||| ModShiftL ||| ModShiftR) ≠ 0 then ShiftModifier else 0) |||
  (if mbyte &&& (ModControl ||| ModCtrlL ||| ModCtrlR) ≠ 0 then ControlModifier else 0) |||
  (if mbyte &&& ModAlt ≠ 0 then AltModifier else 0)

/-- The effective modifier test value computed inside the lookup loop of
processKeycode: start from the live modifiers, XOR Shift in when CapsLock
is on and the candidate is letter-flagged, XOR the AltGr bit in when the
language lock is on. -/
def testMods (st : KbdState) (m : Mapping) : Nat :=
  let t := st.m_modifiers
  let t := if st.m_locks0 ≠ 0 ∧ m.flags &&& IsLetter ≠ 0 then t ^^^ ModShift else t
  if st.m_langLock ≠ 0 then t ^^^ ModAltGr else t

/-- The lookup loop of processKeycode (lines 175-189): scan the keymap,
tracking a plain match (modifier mask 0) and an exact-modifier match,
stopping as soon as both are found. -/
def scanLoop (st : KbdState) (kc : Nat) :
    List Mapping → Option Mapping → Option Mapping → Option Mapping × Option Mapping
  | [], p, w => (p, w)
  | m :: rest, p, w =>
      if p.isSome && w.isSome then (p, w)
      else
        scanLoop st kc rest
          (if m.keycode = kc ∧ m.modifiers = 0 then some m else p)
          (if m.keycode = kc ∧ m.modifiers = testMods st m then some m else w)

/-- The two lookup results (map_plain, map_withmod) for a scancode. -/
def lookupMaps (st : KbdState) (kc : Nat) : Option Mapping × Option Mapping :=
  scanLoop st kc st.m_keymap none none

/-- Selection tie-break of processKeycode line 200: the exact-modifier
match when it exists, else the plain match. -/
def selectMap (pm : Option Mapping × Option Mapping) : Option Mapping :=
  match pm.2 with
  | some m => some m
  | none => pm.1

/-- The reported modifier byte of processKeycode lines 191-192: Shift is
flipped when CapsLock is on and the exact-modifier match is
letter-flagged. -/
def reportedMods (st : KbdState) (mw : Option Mapping) : Nat :=
  match mw with
  | some m =>
      if st.m_locks0 ≠ 0 ∧ m.flags &&& IsLetter ≠ 0 then st.m_modifiers ^^^ ModShift
      else st.m_modifiers
  | none => st.m_modifiers

/-- The mask of Qt modifier bits split off a key code before emission
(modmask of processKeycode line 283). -/
def modmask : Nat :=
  ShiftModifier ||| ControlModifier ||| AltModifier ||| MetaModifier ||| KeypadModifier

/-- The lock-branch result value of processKeycode lines 224-229. -/
def lockAction (qtcode newLock : Nat) : QKeycodeAction :=
  if qtcode = Key_CapsLock then
    (if newLock ≠ 0 then QKeycodeAction.CapsLockOn else QKeycodeAction.CapsLockOff)
  else if qtcode = Key_NumLock then
    (if newLock ≠ 0 then QKeycodeAction.NumLockOn else QKeycodeAction.NumLockOff)
  else if qtcode = Key_ScrollLock then
    (if newLock ≠ 0 then QKeycodeAction.ScrollLockOn else QKeycodeAction.ScrollLockOff)
  else QKeycodeAction.None

/-- The system-branch switch of processKeycode lines 232-259 mapped to the
returned action (the zap case returns no action; it only may quit). -/
def systemAction (special : Nat) : QKeycodeAction :=
  if special = SystemReboot then QKeycodeAction.Reboot
  else if special = SystemConsolePrevious then QKeycodeAction.PreviousConsole
  else if special = SystemConsoleNext then QKeycodeAction.NextConsole
  else if SystemConsoleFirst ≤ special ∧ special ≤ SystemConsoleLast then
    QKeycodeAction.SwitchConsole ((special &&& SystemConsoleMask) &&& SwitchConsoleMask)
  else QKeycodeAction.None

/-- Outcome of the dispatch chain of processKeycode lines 212-279:
possibly updated unicode and qtcode locals, the new state, the action,
the skip flag and the quit request. -/
structure DispatchOut where
  unicode : Nat
  qtcode : Nat
  st : KbdState
  action : QKeycodeAction
  skip : Bool
  quit : Bool
  deriving DecidableEq

/-- The dispatch chain of processKeycode lines 212-279: modifier records,
lock keys, system records, the Compose key and dead keys, in the
precedence order of the source. -/
def dispatchSpecial (st : KbdState) (it : Mapping) (pressed first_press : Bool) : DispatchOut :=
  if it.flags &&& IsModifier ≠ 0 ∧ it.special ≠ 0 then
    { unicode := it.unicode, qtcode := it.qtcode,
      st := { st with m_modifiers :=
        if pressed then st.m_modifiers ||| (it.special &&& 0xff)
        else st.m_modifiers &&& (0xff ^^^ (it.special &&& 0xff)) },
      action := QKeycodeAction.None, skip := false, quit := false }
  else if Key_CapsLock ≤ it.qtcode ∧ it.qtcode ≤ Key_ScrollLock then
    if first_press then
      let idx := it.qtcode - Key_CapsLock
      let newLock := getLock st idx ^^^ 1
      { unicode := it.unicode, qtcode := it.qtcode, st := setLock st idx newLock,
        action := lockAction it.qtcode newLock, skip := false, quit := false }
    else
      { unicode := it.unicode, qtcode := it.qtcode, st := st,
        action := QKeycodeAction.None, skip := false, quit := false }
  else if it.flags &&& IsSystem ≠ 0 ∧ it.special ≠ 0 ∧ first_press then
    { unicode := it.unicode, qtcode := it.qtcode, st := st,
      action := systemAction it.special, skip := true,
      quit := it.special == SystemZap && !st.m_no_zap }
  else if it.qtcode = Key_Multi_key ∧ st.m_do_compose then
    { unicode := it.unicode, qtcode := it.qtcode,
      st := if first_press then { st with m_composing := 2 } else st,
      action := QKeycodeAction.None, skip := true, quit := false }
  else if it.flags &&& IsDead ≠ 0 ∧ st.m_do_compose then
    if first_press ∧ st.m_composing = 1 ∧ st.m_dead_unicode = it.unicode then
      { unicode := it.unicode, qtcode := Key_unknown, st := { st with m_composing := 0 },
        action := QKeycodeAction.None, skip := false, quit := false }
    else if first_press ∧ it.unicode ≠ 0xffff then
      { unicode := it.unicode, qtcode := it.qtcode,
        st := { st with m_dead_unicode := it.unicode, m_composing := 1 },
        action := QKeycodeAction.None, skip := true, quit := false }
    else
      { unicode := it.unicode, qtcode := it.qtcode, st := st,
        action := QKeycodeAction.None, skip := true, quit := false }
  else
    { unicode := it.unicode, qtcode := it.qtcode, st := st,
      action := QKeycodeAction.None, skip := false, quit := false }

/-- Outcome of the compose-resolution block of processKeycode
lines 283-338: updated unicode, qtcode, state and skip flag. -/
structure ComposeOut where
  unicode : Nat
  qtcode : Nat
  st : KbdState
  skip : Bool
  deriving DecidableEq

/-- The compose-resolution block of processKeycode lines 283-338: first
the conditional OR of the live-modifier-derived Qt bits into the key code,
then the compose-stage-2 and compose-stage-1 handling. -/
def composePhase (st : KbdState) (it : Mapping) (map_plain map_withmod : Option Mapping)
    (modifiers : Nat) (first_press : Bool) (unicode qtcode : Nat) : ComposeOut :=
  let wantmods : Bool :=
    (map_plain == some it && map_withmod != some it) ||
    (match map_withmod with
     | some mw => mw.qtcode &&& modmask == 0
     | none => false)
  let qtcode := if wantmods then qtcode ||| toQtModifiers modifiers else qtcode
  if st.m_composing = 2 ∧ first_press ∧ it.flags &&& IsModifier = 0 then
    if unicode ≠ 0xffff then
      if st.m_keycompose.any (fun c => c.first == unicode) then
        { unicode := 0xffff, qtcode := qtcode,
          st := { st with m_dead_unicode := unicode, m_composing := 1 }, skip := true }
      else
        { unicode := unicode, qtcode := qtcode,
          st := { st with m_composing := 0 }, skip := false }
    else
      { unicode := unicode, qtcode := qtcode,
        st := { st with m_composing := 0 }, skip := false }
  else if st.m_composing = 1 ∧ first_press ∧ it.flags &&& IsModifier = 0 then
    let composed : Option Nat :=
      if unicode ≠ 0xffff then
        match st.m_keycompose.find? (fun c => c.first == st.m_dead_unicode && c.second == unicode) with
        | some c => if c.result ≠ 0xffff then some c.result else none
        | none => none
      else none
    match composed with
    | some cu =>
        { unicode := cu, qtcode := Key_unknown,
          st := { st with m_composing := 0 }, skip := false }
    | none =>
        { unicode := st.m_dead_unicode, qtcode := Key_unknown,
          st := { st with m_composing := 0 }, skip := false }
  else
    { unicode := unicode, qtcode := qtcode, st := st, skip := false }

/-- The numeric-keypad switch of processKeycode lines 357-391: scancodes
71..83 without 74 and 78 map to navigation keys; any other value keeps the
given key code (the switch has no default case). -/
def keypadSwitch (keycode qtcode : Nat) : Nat :=
  if keycode = 71 then Key_Home
  else if keycode = 72 then Key_Up
  else if keycode = 73 then Key_PageUp
  else if keycode = 75 then Key_Left
  else if keycode = 76 then Key_Clear
  else if keycode = 77 then Key_Right
  else if keycode = 79 then Key_End
  else if keycode = 80 then Key_Down
  else if keycode = 81 then Key_PageDown
  else if keycode = 82 then Key_Insert
  else if keycode = 83 then Key_Delete
  else qtcode

/-- The final emission block of processKeycode lines 340-399: split the
modifier bits off the key code, apply the NumLock-off keypad remap, apply
the Shift+Tab to Backtab rewrite, and build the key event passed to
processKeyEvent. -/
def finishKey (st : KbdState) (keycode unicode qtcode : Nat)
    (pressed autorepeat : Bool) : KeyEvent :=
  let qtmods := qtcode &&& modmask
  let qt1 := qtcode &&& (0xffffffff ^^^ modmask)
  let p : Nat × Nat :=
    if st.m_locks1 = 0 ∧ qtmods &&& KeypadModifier ≠ 0 ∧
       71 ≤ keycode ∧ keycode ≤ 83 ∧ keycode ≠ 74 ∧ keycode ≠ 78 then
      (0xffff, keypadSwitch keycode qt1)
    else (unicode, qt1)
  let qt2 := if p.2 = Key_Tab ∧ qtmods &&& ShiftModifier = ShiftModifier then Key_Backtab else p.2
  { nativecode := keycode, unicode := p.1, qtcode := qt2, qtmods := qtmods,
    isPress := pressed, autoRepeat := autorepeat }

/-- QVxKeyboardHandler::processKeycode: one raw (scancode, pressed,
autorepeat) event processed against the current state. -/
def processKeycode (st0 : KbdState) (keycode : Nat) (pressed autorepeat : Bool) : ProcResult :=
  let first_press := pressed && !autorepeat
  let pm := lookupMaps st0 keycode
  let modifiers := reportedMods st0 pm.2
  match selectMap pm with
  | none => ⟨QKeycodeAction.None, st0, none, false⟩
  | some it =>
      let d := dispatchSpecial st0 it pressed first_press
      if d.skip then ⟨d.action, d.st, none, d.quit⟩
      else
        let c := composePhase d.st it pm.1 pm.2 modifiers first_press d.unicode d.qtcode
        ⟨d.action, c.st,
         if c.skip then none
         else some (finishKey c.st keycode c.unicode c.qtcode pressed autorepeat), d.quit⟩

/-- Modelled from the spec: the compiled-in default US keymap of
qvxkeyboard_defaultmap_p.h, which is not among the sources.  The claims
do not depend on its entries; a single-record table stands in for it. -/
def s_keymap_default : List Mapping :=
  [⟨30, 0x61, 0x41, 0, IsLetter, 0⟩]

/-- Modelled from the spec: the compiled-in default compose table. -/
def s_keycompose_default : List Composing := []

/-- QVxKeyboardHandler::unloadKeymap: restore the built-in tables and
reset the whole translator state. -/
def unloadKeymap (st : KbdState) : KbdState :=
  { st with
    m_keymap := s_keymap_default,
    m_keycompose := s_keycompose_default,
    m_modifiers := 0,
    m_locks0 := 0, m_locks1 := 0, m_locks2 := 0,
    m_composing := 0,
    m_dead_unicode := 0xffff,
    m_langLock := 0 }

/-- Modelled from the spec: one byte read of the record stream. -/
def readU8 : List Nat → Option (Nat × List Nat)
  | [] => none
  | b :: rest => some (b % 256, rest)

/-- Modelled from the spec: big-endian 16-bit read of the record stream
(QDataStream default byte order). -/
def readU16 : List Nat → Option (Nat × List Nat)
  | b1 :: b2 :: rest => some ((b1 % 256) * 256 + b2 % 256, rest)
  | _ => none

/-- Modelled from the spec: big-endian 32-bit read of the record stream. -/
def readU32 : List Nat → Option (Nat × List Nat)
  | b1 :: b2 :: b3 :: b4 :: rest =>
      some ((b1 % 256) * 16777216 + (b2 % 256) * 65536 + (b3 % 256) * 256 + b4 % 256, rest)
  | _ => none

/-- Modelled from the spec: deserialization of one MappingRecord, fields
in the declared order and widths of the spec data model: scancode u16,
qtLikeKeyCode u32, modifierMask u8, flags u8, special u32, unicode u16. -/
def readMapping (bs : List Nat) : Option (Mapping × List Nat) := do
  let (sc, bs) ← readU16 bs
  let (qt, bs) ← readU32 bs
  let (mm, bs) ← readU8 bs
  let (fl, bs) ← readU8 bs
  let (sp, bs) ← readU32 bs
  let (un, bs) ← readU16 bs
  some (⟨sc, un, qt, mm, fl, sp⟩, bs)

/-- Modelled from the spec: deserialization of one ComposeRecord (first
u16, second u16, result u16). -/
def readComposing (bs : List Nat) : Option (Composing × List Nat) := do
  let (f, bs) ← readU16 bs
  let (s, bs) ← readU16 bs
  let (r, bs) ← readU16 bs
  some (⟨f, s, r⟩, bs)

/-- Read a declared number of records from the stream, failing when the
stream ends before all of them are read. -/
def readRecords {α : Type} (rd : List Nat → Option (α × List Nat)) :
    Nat → List Nat → Option (List α × List Nat)
  | 0, bs => some ([], bs)
  | n + 1, bs => do
      let (x, bs) ← rd bs
      let (xs, bs) ← readRecords rd n bs
      some (x :: xs, bs)

/-- The parsing and validation part of QVxKeyboardHandler::loadKeymap
(lines 447-472): header read, magic / version / nonzero-mapping-count
validation, then all declared mapping and compose records; none on any
rejection. -/
def parseKeymapBytes (bs : List Nat) : Option (List Mapping × List Composing) := do
  let (magic, bs) ← readU32 bs
  let (version, bs) ← readU32 bs
  let (ksize, bs) ← readU32 bs
  let (csize, bs) ← readU32 bs
  if magic ≠ FileMagic ∨ version ≠ 1 ∨ ksize = 0 then none
  else do
    let (maps, bs) ← readRecords readMapping ksize bs
    let (comps, _) ← readRecords readComposing csize bs
    some (maps, comps)

/-- QVxKeyboardHandler::loadKeymap: on a rejected stream report failure
with the state untouched; on success unload the current keymap (which
resets the whole translator state), install the new tables and enable
compose mode. -/
def loadKeymap (st : KbdState) (bs : List Nat) : Bool × KbdState :=
  match parseKeymapBytes bs with
  | none => (false, st)
  | some (maps, comps) =>
      let st := unloadKeymap st
      (true, { st with m_keymap := maps, m_keycompose := comps, m_do_compose := true })

/-- The handler state right after construction (the constructor zeroes
modifiers, locks, compose stage, language lock, sets the pending dead
unicode sentinel and takes the two configuration flags; with no keymap
file it ends in unloadKeymap, i.e. the built-in tables). -/
def mkHandler (disableZap enableCompose : Bool) : KbdState :=
  { m_modifiers := 0,
    m_locks0 := 0, m_locks1 := 0, m_locks2 := 0,
    m_composing := 0,
    m_dead_unicode := 0xffff,
    m_langLock := 0,
    m_no_zap := disableZap,
    m_do_compose := enableCompose,
    m_keymap := s_keymap_default,
    m_keycompose := s_keycompose_default }

/-! ## Concrete states used by witnesses and counterexamples -/

/-- A state whose keymap holds a single system record (reboot) for
scancode 100. -/
def sysTestState : KbdState :=
  { mkHandler false false with m_keymap := [⟨100, 0xffff, 0x41, 0, IsSystem, SystemReboot⟩] }

/-- A state whose keymap holds a single Shift modifier record for
scancode 50. -/
def modTestState : KbdState :=
  { mkHandler false false with m_keymap := [⟨50, 0xffff, 0x01000020, 0, IsModifier, ModShift⟩] }

/-- A state in dead-key stage 1 with pending dead unicode 0xb4 and a
keymap holding the matching dead-key record for scancode 60. -/
def deadTwiceState : KbdState :=
  { mkHandler false true with
    m_composing := 1, m_dead_unicode := 0xb4,
    m_keymap := [⟨60, 0xb4, 0x01001252, 0, IsDead, 0⟩] }

/-- A state whose keymap holds a single CapsLock record for scancode 58. -/
def capsState : KbdState :=
  { mkHandler false false with m_keymap := [⟨58, 0xffff, Key_CapsLock, 0, 0, 0⟩] }

/-- A well-formed keymap byte stream: valid header, one mapping record,
no compose records. -/
def goodBytes : List Nat :=
  [0x51, 0x4d, 0x41, 0x50, 0, 0, 0, 1, 0, 0, 0, 1, 0, 0, 0, 0] ++
  [0, 30, 0, 0, 0, 0x41, 0, IsLetter, 0, 0, 0, 0, 0, 0x61]

/-- A rejected keymap byte stream: valid magic but version 2. -/
def c4BadBytes : List Nat :=
  [0x51, 0x4d, 0x41, 0x50, 0, 0, 0, 2, 0, 0, 0, 1, 0, 0, 0, 0]

/-! ## C4: rejected loads are all-or-nothing -/

/-- C4: for every byte stream rejected by the loader (bad magic, version
not equal to 1, zero mapping count, or a stream ending before all
declared mapping and compose records are read — exactly the cases in
which parseKeymapBytes returns none), loadKeymap reports failure and
returns the state exactly as it was: keymap table, compose table and
every translator-state field included. -/
theorem C4_load_reject_all_or_nothing (st : KbdState) (bs : List Nat)
    (h : parseKeymapBytes bs = none) :
    (loadKeymap st bs).fst = false ∧ (loadKeymap st bs).snd = st := by
  simp [loadKeymap, h]

/-- C4 witness: a concrete stream with version 2 is rejected and the
state is returned untouched. -/
theorem C4_witness :
    parseKeymapBytes c4BadBytes = none ∧
    (loadKeymap sysTestState c4BadBytes).fst = false ∧
    (loadKeymap sysTestState c4BadBytes).snd = sysTestState :=
  ⟨by decide, C4_load_reject_all_or_nothing sysTestState c4BadBytes (by decide)⟩

/-! ## C7: successful loads install the new tables and reset the state -/

/-- C7: immediately after every successful loadKeymap call the parsed
mapping and compose tables are installed and the translator state is
fully reset: modifier byte 0, the three lock flags 0, compose stage 0,
pending dead unicode 0xffff and language lock 0. -/
theorem C7_load_success_installs_and_resets (st : KbdState) (bs : List Nat)
    (h : (loadKeymap st bs).fst = true) :
    (loadKeymap st bs).snd.m_modifiers = 0 ∧
    (loadKeymap st bs).snd.m_locks0 = 0 ∧
    (loadKeymap st bs).snd.m_locks1 = 0 ∧
    (loadKeymap st bs).snd.m_locks2 = 0 ∧
    (loadKeymap st bs).snd.m_composing = 0 ∧
    (loadKeymap st bs).snd.m_dead_unicode = 0xffff ∧
    (loadKeymap st bs).snd.m_langLock = 0 ∧
    ∃ maps comps, parseKeymapBytes bs = some (maps, comps) ∧
      (loadKeymap st bs).snd.m_keymap = maps ∧
      (loadKeymap st bs).snd.m_keycompose = comps := by
  cases hp : parseKeymapBytes bs with
  | none => rw [loadKeymap, hp] at h; simp at h
  | some tc =>
      obtain ⟨maps, comps⟩ := tc
      rw [loadKeymap, hp]
      refine ⟨rfl, rfl, rfl, rfl, rfl, rfl, rfl, maps, comps, rfl, rfl, rfl⟩

/-- C7 witness: loading a concrete well-formed stream resets the state
and installs the parsed single-record table. -/
theorem C7_witness :
    (loadKeymap sysTestState goodBytes).snd.m_modifiers = 0 ∧
    (loadKeymap sysTestState goodBytes).snd.m_locks0 = 0 ∧
    (loadKeymap sysTestState goodBytes).snd.m_locks1 = 0 ∧
    (loadKeymap sysTestState goodBytes).snd.m_locks2 = 0 ∧
    (loadKeymap sysTestState goodBytes).snd.m_composing = 0 ∧
    (loadKeymap sysTestState goodBytes).snd.m_dead_unicode = 0xffff ∧
    (loadKeymap sysTestState goodBytes).snd.m_langLock = 0 ∧
    ∃ maps comps, parseKeymapBytes goodBytes = some (maps, comps) ∧
      (loadKeymap sysTestState goodBytes).snd.m_keymap = maps ∧
      (loadKeymap sysTestState goodBytes).snd.m_keycompose = comps :=
  C7_load_success_installs_and_resets sysTestState goodBytes (by decide)

/-! ## C10: every successful load force-enables compose mode -/

/-- C10: every successful loadKeymap call sets the compose-enable flag to
true, whatever its value was before (in particular whatever enableCompose
value the handler was constructed with). -/
theorem C10_load_enables_compose (st : KbdState) (bs : List Nat)
    (h : (loadKeymap st bs).fst = true) :
    (loadKeymap st bs).snd.m_do_compose = true := by
  cases hp : parseKeymapBytes bs with
  | none => rw [loadKeymap, hp] at h; simp at h
  | some tc => obtain ⟨maps, comps⟩ := tc; rw [loadKeymap, hp]

/-- C10 witness: a handler constructed with compose disabled has compose
enabled right after loading a concrete well-formed keymap stream. -/
theorem C10_witness :
    (mkHandler false false).m_do_compose = false ∧
    (loadKeymap (mkHandler false false) goodBytes).fst = true ∧
    (loadKeymap (mkHandler false false) goodBytes).snd.m_do_compose = true :=
  ⟨by decide, by decide, C10_load_enables_compose (mkHandler false false) goodBytes (by decide)⟩

/-! ## Lookup lemmas -/

/-- Any exact-modifier result produced by the scan loop has the looked-up
scancode and a modifier mask equal to its effective test value. -/
theorem scanLoop_w_sound (st : KbdState) (kc : Nat) (l : List Mapping) :
    ∀ p w, (∀ m, w = some m → m.keycode = kc ∧ m.modifiers = testMods st m) →
      ∀ m, (scanLoop st kc l p w).2 = some m →
        m.keycode = kc ∧ m.modifiers = testMods st m := by
  induction l with
  | nil =>
      intro p w hw m hm
      rw [scanLoop] at hm
      exact hw m hm
  | cons a rest ih =>
      intro p w hw m hm
      rw [scanLoop] at hm
      split at hm
      · exact hw m hm
      · refine ih _ _ ?_ m hm
        intro m' hm'
        split at hm'
        · obtain ⟨h1, h2⟩ := ‹a.keycode = kc ∧ a.modifiers = testMods st a›
          cases hm'
          exact ⟨h1, h2⟩
        · exact hw m' hm'

/-- The scan loop finds an exact-modifier match whenever one exists in
the remaining list (it only stops early once such a match is held). -/
theorem scanLoop_w_complete (st : KbdState) (kc : Nat) (l : List Mapping) :
    ∀ p w, (∃ m ∈ l, m.keycode = kc ∧ m.modifiers = testMods st m) ∨ w.isSome = true →
      ((scanLoop st kc l p w).2).isSome = true := by
  induction l with
  | nil =>
      intro p w h
      rw [scanLoop]
      rcases h with ⟨m, hm, _⟩ | h
      · simp at hm
      · exact h
  | cons a rest ih =>
      intro p w h
      rw [scanLoop]
      split
      · rename_i hps
        rw [Bool.and_eq_true] at hps
        exact hps.2
      · refine ih _ _ ?_
        rcases h with ⟨m, hm, hmatch⟩ | h
        · rcases List.mem_cons.mp hm with rfl | hmem
          · right; rw [if_pos hmatch]; rfl
          · exact Or.inl ⟨m, hmem, hmatch⟩
        · right
          split
          · rfl
          · exact h

/-- When no record of the remaining list carries the looked-up scancode
with a plain or exactly matching modifier mask, the scan loop returns its
accumulators unchanged. -/
theorem scanLoop_nomatch (st : KbdState) (kc : Nat) (l : List Mapping) :
    ∀ p w, (∀ m ∈ l, m.keycode = kc → m.modifiers ≠ 0 ∧ m.modifiers ≠ testMods st m) →
      scanLoop st kc l p w = (p, w) := by
  induction l with
  | nil => intro p w _; rw [scanLoop]
  | cons a rest ih =>
      intro p w h
      rw [scanLoop]
      split
      · rfl
      · have ha := h a (List.mem_cons_self a rest)
        rw [if_neg, if_neg]
        · exact ih p w (fun m hm => h m (List.mem_cons_of_mem a hm))
        · rintro ⟨h1, h2⟩
          exact (ha h1).2 h2
        · rintro ⟨h1, h2⟩
          exact (ha h1).1 h2

/-! ## C5: effective modifier test and selection tie-break -/

/-- C5: the lookup computes for each candidate an effective modifier test
value testMods (live modifiers, with Shift XOR-ed in when CapsLock is on
and the candidate is letter-flagged, and the AltGr bit XOR-ed in when the
language lock is on); every exact-modifier result of the lookup has its
modifier mask equal to that test value (and the looked-up scancode), an
exact-modifier match is found whenever one exists in the table, and when
both a plain and an exact-modifier match exist the exact-modifier match
is the one selected. -/
theorem C5_lookup_test_and_tiebreak (st : KbdState) (kc : Nat) :
    (∀ m, (lookupMaps st kc).2 = some m → m.keycode = kc ∧ m.modifiers = testMods st m) ∧
    ((∃ m ∈ st.m_keymap, m.keycode = kc ∧ m.modifiers = testMods st m) →
      ((lookupMaps st kc).2).isSome = true) ∧
    (∀ p w, lookupMaps st kc = (some p, some w) → selectMap (lookupMaps st kc) = some w) := by
  refine ⟨?_, ?_, ?_⟩
  · intro m hm
    exact scanLoop_w_sound st kc st.m_keymap none none (by intro m' hm'; cases hm') m hm
  · intro hex
    exact scanLoop_w_complete st kc st.m_keymap none none (Or.inl hex)
  · intro p w hpw
    rw [selectMap, hpw]

/-- C5 witness: in a concrete one-record table the record matching the
effective test value is found and reported with its test value. -/
theorem C5_witness :
    ((lookupMaps modTestState 50).2).isSome = true :=
  (C5_lookup_test_and_tiebreak modTestState 50).2.1
    ⟨⟨50, 0xffff, 0x01000020, 0, IsModifier, ModShift⟩, by decide, by decide, by decide⟩

/-! ## C6: unmatched scancodes are dropped with no state change -/

/-- C6: for every scancode for which no record of the active table
matches (no plain record and no exact-modifier record) and every
press/release/autorepeat value, processKeycode returns the None action,
the state completely unchanged (modifier byte, the three lock flags,
compose stage, pending dead unicode, language lock, tables), and forwards
no key event. -/
theorem C6_unmatched_dropped (st : KbdState) (kc : Nat) (pressed autorepeat : Bool)
    (h : ∀ m ∈ st.m_keymap, m.keycode = kc → m.modifiers ≠ 0 ∧ m.modifiers ≠ testMods st m) :
    processKeycode st kc pressed autorepeat = ⟨QKeycodeAction.None, st, none, false⟩ := by
  have hlk : lookupMaps st kc = (none, none) :=
    scanLoop_nomatch st kc st.m_keymap none none h
  rw [processKeycode, hlk]
  rfl

/-- C6 witness: a scancode absent from a concrete table is dropped with
the state unchanged. -/
theorem C6_witness :
    processKeycode sysTestState 99 true false =
      ⟨QKeycodeAction.None, sysTestState, none, false⟩ :=
  C6_unmatched_dropped sysTestState 99 true false (by decide)

/-! ## Compose-phase helper lemmas -/

/-- For a modifier-flagged record the compose-resolution block changes
nothing and does not absorb the event (both stage conditions exclude
modifier-flagged records). -/
theorem composePhase_modrec (st : KbdState) (it : Mapping) (p w : Option Mapping)
    (mods : Nat) (fp : Bool) (u q : Nat)
    (h : it.flags &&& IsModifier ≠ 0) :
    (composePhase st it p w mods fp u q).st = st ∧
    (composePhase st it p w mods fp u q).skip = false := by
  simp only [composePhase]
  rw [if_neg (fun hc => h hc.2.2), if_neg (fun hc => h hc.2.2)]
  exact ⟨rfl, rfl⟩

/-- With the compose stage neither 1 nor 2, the compose-resolution block
keeps the state and the unicode, does not absorb the event, and either
ORs the live-modifier-derived Qt bits into the key code or keeps it. -/
theorem composePhase_idle (st : KbdState) (it : Mapping) (p w : Option Mapping)
    (mods : Nat) (fp : Bool) (u q : Nat)
    (h2 : st.m_composing ≠ 2) (h1 : st.m_composing ≠ 1) :
    (composePhase st it p w mods fp u q).st = st ∧
    (composePhase st it p w mods fp u q).skip = false ∧
    (composePhase st it p w mods fp u q).unicode = u ∧
    ((composePhase st it p w mods fp u q).qtcode = q ||| toQtModifiers mods ∨
     (composePhase st it p w mods fp u q).qtcode = q) := by
  simp only [composePhase]
  rw [if_neg (fun hc => h2 hc.1), if_neg (fun hc => h1 hc.1)]
  refine ⟨rfl, rfl, rfl, ?_⟩
  split
  · exact Or.inl rfl
  · exact Or.inr rfl

/-- The compose-resolution block never touches the lock flags, the live
modifier byte, the language lock or the tables. -/
theorem composePhase_frame (st : KbdState) (it : Mapping) (p w : Option Mapping)
    (mods : Nat) (fp : Bool) (u q : Nat) :
    (composePhase st it p w mods fp u q).st.m_locks0 = st.m_locks0 ∧
    (composePhase st it p w mods fp u q).st.m_locks1 = st.m_locks1 ∧
    (composePhase st it p w mods fp u q).st.m_locks2 = st.m_locks2 ∧
    (composePhase st it p w mods fp u q).st.m_modifiers = st.m_modifiers ∧
    (composePhase st it p w mods fp u q).st.m_langLock = st.m_langLock ∧
    (composePhase st it p w mods fp u q).st.m_keymap = st.m_keymap := by
  simp only [composePhase]
  repeat' split
  all_goals exact ⟨rfl, rfl, rfl, rfl, rfl, rfl⟩

/-! ## Numeric lemmas about the emitted Qt bits -/

/-- The live-modifier-derived Qt bits never contain the keypad flag. -/
theorem tq_keypad (m : Nat) :
    ((Key_unknown ||| toQtModifiers m) &&& modmask) &&& KeypadModifier = 0 := by
  unfold toQtModifiers
  split <;> split <;> split <;> decide

/-- Splitting the modifier bits off an unknown-key code with any
live-modifier-derived bits OR-ed in gives back the unknown-key code. -/
theorem tq_strip (m : Nat) :
    (Key_unknown ||| toQtModifiers m) &&& (0xffffffff ^^^ modmask) = Key_unknown := by
  unfold toQtModifiers
  split <;> split <;> split <;> decide

/-- The final emission block of a key whose code was rewritten to the
unknown key emits exactly that code and keeps the unicode it was given
(the keypad remap and the Backtab rewrite never fire on it). -/
theorem finishKey_unknown (st : KbdState) (kc u : Nat) (pr ar : Bool) (m q : Nat)
    (hq : q = Key_unknown ||| toQtModifiers m ∨ q = Key_unknown) :
    (finishKey st kc u q pr ar).qtcode = Key_unknown ∧
    (finishKey st kc u q pr ar).unicode = u := by
  have hkt : Key_unknown ≠ Key_Tab := by decide
  rcases hq with rfl | rfl
  · simp only [finishKey, tq_strip, tq_keypad]
    simp [hkt]
  · have hz : (Key_unknown &&& modmask) &&& KeypadModifier = 0 := by decide
    have hs : Key_unknown &&& (0xffffffff ^^^ modmask) = Key_unknown := by decide
    simp only [finishKey, hz, hs]
    simp [hkt]

/-! ## Dispatch-chain characterization lemmas -/

/-- A modifier record with a nonzero special value take the first branch
of the dispatch chain: OR the special byte into the live modifiers on
press, AND it out on release; not absorbed there. -/
theorem dispatchSpecial_modifier (st : KbdState) (it : Mapping) (pressed fp : Bool)
    (h1 : it.flags &&& IsModifier ≠ 0) (h2 : it.special ≠ 0) :
    dispatchSpecial st it pressed fp =
      { unicode := it.unicode, qtcode := it.qtcode,
        st := { st with m_modifiers :=
          if pressed then st.m_modifiers ||| (it.special &&& 0xff)
          else st.m_modifiers &&& (0xff ^^^ (it.special &&& 0xff)) },
        action := QKeycodeAction.None, skip := false, quit := false } := by
  unfold dispatchSpecial
  rw [if_pos (show it.flags &&& IsModifier ≠ 0 ∧ it.special ≠ 0 from ⟨h1, h2⟩)]

/-- A system record (nonzero special, not a modifier record, key code not
in the lock range) is absorbed on a first press, producing its system
action and possibly a quit request. -/
theorem dispatchSpecial_system (st : KbdState) (it : Mapping) (pressed : Bool)
    (h1 : it.flags &&& IsModifier = 0)
    (h2 : ¬(Key_CapsLock ≤ it.qtcode ∧ it.qtcode ≤ Key_ScrollLock))
    (h3 : it.flags &&& IsSystem ≠ 0) (h4 : it.special ≠ 0) :
    dispatchSpecial st it pressed true =
      { unicode := it.unicode, qtcode := it.qtcode, st := st,
        action := systemAction it.special, skip := true,
        quit := it.special == SystemZap && !st.m_no_zap } := by
  unfold dispatchSpecial
  rw [if_neg (show ¬(it.flags &&& IsModifier ≠ 0 ∧ it.special ≠ 0) from fun h => h.1 h1),
      if_neg h2,
      if_pos (show it.flags &&& IsSystem ≠ 0 ∧ it.special ≠ 0 ∧ (true : Bool) = true from
        ⟨h3, h4, rfl⟩)]

/-- A dead-key record whose unicode equals the pending dead unicode, on a
first press in compose stage 1: stage back to 0, key code rewritten to
the unknown key, not absorbed. -/
theorem dispatchSpecial_deadTwice (st : KbdState) (it : Mapping) (pressed : Bool)
    (h1 : it.flags &&& IsModifier = 0)
    (h2 : ¬(Key_CapsLock ≤ it.qtcode ∧ it.qtcode ≤ Key_ScrollLock))
    (h3 : ¬(it.flags &&& IsSystem ≠ 0 ∧ it.special ≠ 0))
    (h4 : it.qtcode ≠ Key_Multi_key)
    (h5 : it.flags &&& IsDead ≠ 0) (h6 : st.m_do_compose = true)
    (h7 : st.m_composing = 1) (h8 : st.m_dead_unicode = it.unicode) :
    dispatchSpecial st it pressed true =
      { unicode := it.unicode, qtcode := Key_unknown, st := { st with m_composing := 0 },
        action := QKeycodeAction.None, skip := false, quit := false } := by
  unfold dispatchSpecial
  rw [if_neg (show ¬(it.flags &&& IsModifier ≠ 0 ∧ it.special ≠ 0) from fun h => h.1 h1),
      if_neg h2,
      if_neg (show ¬(it.flags &&& IsSystem ≠ 0 ∧ it.special ≠ 0 ∧ (true : Bool) = true) from
        fun h => h3 ⟨h.1, h.2.1⟩),
      if_neg (show ¬(it.qtcode = Key_Multi_key ∧ st.m_do_compose = true) from fun h => h4 h.1),
      if_pos (show it.flags &&& IsDead ≠ 0 ∧ st.m_do_compose = true from ⟨h5, h6⟩),
      if_pos (show (true : Bool) = true ∧ st.m_composing = 1 ∧ st.m_dead_unicode = it.unicode from
        ⟨rfl, h7, h8⟩)]

/-- A record whose key code lies in the lock range (and that is not a
modifier record), on a first press: the corresponding lock flag is
toggled and the matching lock action returned; not absorbed. -/
theorem dispatchSpecial_lock_first (st : KbdState) (it : Mapping) (pressed : Bool)
    (h1 : ¬(it.flags &&& IsModifier ≠ 0 ∧ it.special ≠ 0))
    (h2 : Key_CapsLock ≤ it.qtcode ∧ it.qtcode ≤ Key_ScrollLock) :
    dispatchSpecial st it pressed true =
      { unicode := it.unicode, qtcode := it.qtcode,
        st := setLock st (it.qtcode - Key_CapsLock) (getLock st (it.qtcode - Key_CapsLock) ^^^ 1),
        action := lockAction it.qtcode (getLock st (it.qtcode - Key_CapsLock) ^^^ 1),
        skip := false, quit := false } := by
  unfold dispatchSpecial
  rw [if_neg h1, if_pos h2,
      if_pos (show (true : Bool) = true from rfl)]

/-- A record whose key code lies in the lock range, on a press that is
not a first press (autorepeat) or on a release: nothing happens in the
dispatch chain. -/
theorem dispatchSpecial_lock_notfirst (st : KbdState) (it : Mapping) (pressed : Bool)
    (h1 : ¬(it.flags &&& IsModifier ≠ 0 ∧ it.special ≠ 0))
    (h2 : Key_CapsLock ≤ it.qtcode ∧ it.qtcode ≤ Key_ScrollLock) :
    dispatchSpecial st it pressed false =
      { unicode := it.unicode, qtcode := it.qtcode, st := st,
        action := QKeycodeAction.None, skip := false, quit := false } := by
  unfold dispatchSpecial
  rw [if_neg h1, if_pos h2,
      if_neg (show ¬((false : Bool) = true) from by decide)]

/-! ## C1: system records (corrected) -/

/-- C1 counterexample: a concrete keymap whose only record for scancode
100 has the IsSystem flag and a nonzero special value, yet the release
event (pressed = false) for that scancode is forwarded to the windowing
layer, contradicting the claim that such records are absorbed for every
press/release/autorepeat value. -/
theorem C1_counterexample :
    sysTestState.m_keymap = [⟨100, 0xffff, 0x41, 0, IsSystem, SystemReboot⟩] ∧
    IsSystem &&& IsSystem ≠ 0 ∧ SystemReboot ≠ 0 ∧
    ((processKeycode sysTestState 100 false false).event).isSome = true := by decide

/-- C1 amended: a selected record with the IsSystem flag and a nonzero
special value (that is not also dispatched earlier as a modifier or lock
record) absorbs the event on a genuine first press: no key event is
forwarded to the windowing layer.  (Autorepeat presses and releases of
such a record fall through to normal key processing, as the
counterexample shows.) -/
theorem C1_system_first_press_absorbed (st : KbdState) (kc : Nat) (it : Mapping)
    (hsel : selectMap (lookupMaps st kc) = some it)
    (hsys : it.flags &&& IsSystem ≠ 0) (hsp : it.special ≠ 0)
    (hnmod : it.flags &&& IsModifier = 0)
    (hnlock : ¬(Key_CapsLock ≤ it.qtcode ∧ it.qtcode ≤ Key_ScrollLock)) :
    (processKeycode st kc true false).event = none := by
  simp only [processKeycode, hsel, Bool.not_false, Bool.and_self]
  rw [dispatchSpecial_system st it true hnmod hnlock hsys hsp]
  rfl

/-- C1 witness: the first press of the concrete system record is
absorbed. -/
theorem C1_witness :
    selectMap (lookupMaps sysTestState 100) =
      some ⟨100, 0xffff, 0x41, 0, IsSystem, SystemReboot⟩ ∧
    (processKeycode sysTestState 100 true false).event = none :=
  ⟨by decide,
   C1_system_first_press_absorbed sysTestState 100
     ⟨100, 0xffff, 0x41, 0, IsSystem, SystemReboot⟩
     (by decide) (by decide) (by decide) (by decide) (by decide)⟩

/-! ## C2: modifier records (corrected) -/

/-- C2 counterexample: a concrete keymap whose only record for scancode
50 has the IsModifier flag and a nonzero special value (the Shift bit);
the press does OR the bit into the live modifiers, but a key event for
this scancode is also forwarded to the windowing layer, contradicting the
claim that no key event is emitted. -/
theorem C2_counterexample :
    modTestState.m_keymap = [⟨50, 0xffff, 0x01000020, 0, IsModifier, ModShift⟩] ∧
    IsModifier &&& IsModifier ≠ 0 ∧ ModShift ≠ 0 ∧
    (processKeycode modTestState 50 true false).state.m_modifiers = ModShift ∧
    ((processKeycode modTestState 50 true false).event).isSome = true := by decide

/-- C2 amended: for a selected record with the IsModifier flag and a
nonzero special value, a press ORs the special byte into the live
modifier byte and a release ANDs it out — but the key event for that
scancode is still forwarded to the windowing layer (the modifier branch
of the dispatch chain does not absorb the event). -/
theorem C2_modifier_updates_but_emits (st : KbdState) (kc : Nat) (it : Mapping)
    (pressed autorepeat : Bool)
    (hsel : selectMap (lookupMaps st kc) = some it)
    (hmod : it.flags &&& IsModifier ≠ 0) (hsp : it.special ≠ 0) :
    (processKeycode st kc pressed autorepeat).state.m_modifiers =
      (if pressed then st.m_modifiers ||| (it.special &&& 0xff)
       else st.m_modifiers &&& (0xff ^^^ (it.special &&& 0xff))) ∧
    ((processKeycode st kc pressed autorepeat).event).isSome = true := by
  have hd := dispatchSpecial_modifier st it pressed (pressed && !autorepeat) hmod hsp
  obtain ⟨hst, hskip⟩ := composePhase_modrec
    { st with m_modifiers :=
      if pressed then st.m_modifiers ||| (it.special &&& 0xff)
      else st.m_modifiers &&& (0xff ^^^ (it.special &&& 0xff)) }
    it (lookupMaps st kc).1 (lookupMaps st kc).2
    (reportedMods st (lookupMaps st kc).2) (pressed && !autorepeat)
    it.unicode it.qtcode hmod
  simp only [processKeycode, hsel, hd]
  simp only [hskip, hst]
  simp only [if_neg (show ¬((false : Bool) = true) from by decide)]
  exact ⟨by trivial, by trivial⟩

/-- C2 witness: a release of the concrete Shift record with the Shift bit
live ANDs the bit out, and the event is still forwarded. -/
theorem C2_witness :
    selectMap (lookupMaps { modTestState with m_modifiers := ModShift } 50) =
      some ⟨50, 0xffff, 0x01000020, 0, IsModifier, ModShift⟩ ∧
    (processKeycode { modTestState with m_modifiers := ModShift } 50 false false).state.m_modifiers = 0 ∧
    ((processKeycode { modTestState with m_modifiers := ModShift } 50 false false).event).isSome = true := by
  have h := C2_modifier_updates_but_emits { modTestState with m_modifiers := ModShift } 50
    ⟨50, 0xffff, 0x01000020, 0, IsModifier, ModShift⟩ false false
    (by decide) (by decide) (by decide)
  exact ⟨by decide, by simpa using h.1, h.2⟩

/-! ## C3: pressing the same dead key twice (corrected) -/

/-- C3 counterexample: with compose enabled, in dead-key stage 1 with
pending dead unicode 0xb4, a first press of the same dead key (whose own
underlying key code is 0x01001252) emits a key event whose key code is
the unknown-key code — not the record's own key code — and whose unicode
is 0xb4, i.e. not empty, contradicting both emitted-field parts of the
claim. -/
theorem C3_counterexample :
    deadTwiceState.m_keymap = [⟨60, 0xb4, 0x01001252, 0, IsDead, 0⟩] ∧
    deadTwiceState.m_composing = 1 ∧ deadTwiceState.m_dead_unicode = 0xb4 ∧
    (processKeycode deadTwiceState 60 true false).event =
      some ⟨60, 0xb4, Key_unknown, 0, true, false⟩ ∧
    Key_unknown ≠ 0x01001252 ∧ (0xb4 : Nat) ≠ 0xffff := by decide

/-- C3 amended: with compose mode enabled, in dead-key stage 1, a genuine
first press of the same dead key (pending dead unicode equal to the
record's unicode; record not dispatched earlier as modifier, lock, system
or compose-key record) cancels the composition (stage back to 0) and
emits exactly one key event whose key code is the unknown-key code
(Key_unknown, not the record's own key code) and whose unicode is the
dead key's unicode (not the empty sentinel). -/
theorem C3_dead_twice_cancels (st : KbdState) (kc : Nat) (it : Mapping)
    (hsel : selectMap (lookupMaps st kc) = some it)
    (hdead : it.flags &&& IsDead ≠ 0)
    (hdc : st.m_do_compose = true)
    (hstage : st.m_composing = 1)
    (hpend : st.m_dead_unicode = it.unicode)
    (hnmod : it.flags &&& IsModifier = 0)
    (hnlock : ¬(Key_CapsLock ≤ it.qtcode ∧ it.qtcode ≤ Key_ScrollLock))
    (hnsys : ¬(it.flags &&& IsSystem ≠ 0 ∧ it.special ≠ 0))
    (hnmulti : it.qtcode ≠ Key_Multi_key) :
    (processKeycode st kc true false).state.m_composing = 0 ∧
    ∃ ev, (processKeycode st kc true false).event = some ev ∧
      ev.qtcode = Key_unknown ∧ ev.unicode = it.unicode := by
  have hd := dispatchSpecial_deadTwice st it true hnmod hnlock hnsys hnmulti hdead hdc hstage hpend
  obtain ⟨hst, hskip, huni, hqt⟩ :=
    composePhase_idle { st with m_composing := 0 } it (lookupMaps st kc).1 (lookupMaps st kc).2
      (reportedMods st (lookupMaps st kc).2) true it.unicode Key_unknown
      (by simp) (by simp)
  have hfin := finishKey_unknown { st with m_composing := 0 } kc
    ((composePhase { st with m_composing := 0 } it (lookupMaps st kc).1 (lookupMaps st kc).2
      (reportedMods st (lookupMaps st kc).2) true it.unicode Key_unknown).unicode) true false
    (reportedMods st (lookupMaps st kc).2)
    ((composePhase { st with m_composing := 0 } it (lookupMaps st kc).1 (lookupMaps st kc).2
      (reportedMods st (lookupMaps st kc).2) true it.unicode Key_unknown).qtcode) hqt
  simp only [processKeycode, hsel, Bool.not_false, Bool.and_self, hd]
  simp only [hskip, hst]
  simp only [if_neg (show ¬((false : Bool) = true) from by decide)]
  exact ⟨by trivial, ⟨_, by trivial, hfin.1, by rw [hfin.2, huni]⟩⟩

/-- C3 witness: the concrete double press of the dead-acute record. -/
theorem C3_witness :
    (processKeycode deadTwiceState 60 true false).state.m_composing = 0 ∧
    ∃ ev, (processKeycode deadTwiceState 60 true false).event = some ev ∧
      ev.qtcode = Key_unknown ∧ ev.unicode = 0xb4 :=
  C3_dead_twice_cancels deadTwiceState 60 ⟨60, 0xb4, 0x01001252, 0, IsDead, 0⟩
    (by decide) (by decide) (by decide) (by decide) (by decide) (by decide)
    (by decide) (by decide) (by decide)

/-! ## C8: numeric-keypad remap -/

/-- When the keypad remap condition of the emission block holds and the
remapped key is not Tab, the emitted unicode is cleared and the key code
is the keypad-switch result. -/
theorem finishKey_remap_on (st : KbdState) (kc u q : Nat) (pr ar : Bool)
    (h0 : st.m_locks1 = 0)
    (hkp : (q &&& modmask) &&& KeypadModifier ≠ 0)
    (h1 : 71 ≤ kc) (h2 : kc ≤ 83) (h3 : kc ≠ 74) (h4 : kc ≠ 78)
    (h5 : keypadSwitch kc (q &&& (0xffffffff ^^^ modmask)) ≠ Key_Tab) :
    (finishKey st kc u q pr ar).unicode = 0xffff ∧
    (finishKey st kc u q pr ar).qtcode = keypadSwitch kc (q &&& (0xffffffff ^^^ modmask)) := by
  simp only [finishKey]
  rw [if_pos (show st.m_locks1 = 0 ∧ (q &&& modmask) &&& KeypadModifier ≠ 0 ∧
        71 ≤ kc ∧ kc ≤ 83 ∧ kc ≠ 74 ∧ kc ≠ 78 from ⟨h0, hkp, h1, h2, h3, h4⟩)]
  dsimp only
  rw [if_neg (show ¬(keypadSwitch kc (q &&& (0xffffffff ^^^ modmask)) = Key_Tab ∧
        (q &&& modmask) &&& ShiftModifier = ShiftModifier) from fun h => h5 h.1)]
  exact ⟨rfl, rfl⟩

/-- When the keypad remap condition of the emission block fails and the
stripped key code is not Tab, the emitted unicode and key code are the
given ones (key code with the modifier bits split off). -/
theorem finishKey_remap_off (st : KbdState) (kc u q : Nat) (pr ar : Bool)
    (h0 : ¬(st.m_locks1 = 0 ∧ (q &&& modmask) &&& KeypadModifier ≠ 0 ∧
        71 ≤ kc ∧ kc ≤ 83 ∧ kc ≠ 74 ∧ kc ≠ 78))
    (htab : q &&& (0xffffffff ^^^ modmask) ≠ Key_Tab) :
    (finishKey st kc u q pr ar).unicode = u ∧
    (finishKey st kc u q pr ar).qtcode = q &&& (0xffffffff ^^^ modmask) := by
  simp only [finishKey]
  rw [if_neg h0]
  dsimp only
  rw [if_neg (show ¬(q &&& (0xffffffff ^^^ modmask) = Key_Tab ∧
        (q &&& modmask) &&& ShiftModifier = ShiftModifier) from fun h => htab h.1)]
  exact ⟨rfl, rfl⟩

/-- C8: with NumLock off, resolved modifiers containing the keypad flag,
and the raw scancode in the set 71, 72, 73, 75, 76, 77, 79, 80, 81, 82,
83 (74 and 78 excluded), the emission block remaps the key code through
the keypad navigation switch (71 to Home) and clears the unicode; with
NumLock on the same scancode keeps its given unicode and key code (with
only the modifier bits split off; Tab excluded as it is subject to the
separate Backtab rewrite). -/
theorem C8_keypad_remap (st : KbdState) (kc u q : Nat) (pr ar : Bool)
    (hkp : (q &&& modmask) &&& KeypadModifier ≠ 0)
    (hkc : kc ∈ [71, 72, 73, 75, 76, 77, 79, 80, 81, 82, 83]) :
    (st.m_locks1 = 0 →
      (finishKey st kc u q pr ar).unicode = 0xffff ∧
      (finishKey st kc u q pr ar).qtcode = keypadSwitch kc (q &&& (0xffffffff ^^^ modmask)) ∧
      (kc = 71 → (finishKey st kc u q pr ar).qtcode = Key_Home)) ∧
    (st.m_locks1 ≠ 0 → q &&& (0xffffffff ^^^ modmask) ≠ Key_Tab →
      (finishKey st kc u q pr ar).unicode = u ∧
      (finishKey st kc u q pr ar).qtcode = q &&& (0xffffffff ^^^ modmask)) := by
  have hrange : 71 ≤ kc ∧ kc ≤ 83 ∧ kc ≠ 74 ∧ kc ≠ 78 := by
    fin_cases hkc <;> simp
  have hnt : keypadSwitch kc (q &&& (0xffffffff ^^^ modmask)) ≠ Key_Tab := by
    fin_cases hkc <;>
      simp [keypadSwitch, Key_Home, Key_Up, Key_PageUp, Key_Left, Key_Clear,
        Key_Right, Key_End, Key_Down, Key_PageDown, Key_Insert, Key_Delete, Key_Tab]
  constructor
  · intro h0
    obtain ⟨hu, hq⟩ := finishKey_remap_on st kc u q pr ar h0 hkp
      hrange.1 hrange.2.1 hrange.2.2.1 hrange.2.2.2 hnt
    refine ⟨hu, hq, ?_⟩
    intro h71
    rw [hq, h71]
    rfl
  · intro h1 htab
    exact finishKey_remap_off st kc u q pr ar (fun h => h1 h.1) htab

/-- C8 witness: scancode 71 with the keypad modifier resolved, NumLock
off, remaps to Home with cleared unicode; with NumLock on it keeps its
digit unicode and key code. -/
theorem C8_witness :
    (((0x30 ||| KeypadModifier) &&& modmask) &&& KeypadModifier ≠ 0) ∧
    ((finishKey (mkHandler false false) 71 0x37 (0x30 ||| KeypadModifier) true false).unicode = 0xffff ∧
     (finishKey (mkHandler false false) 71 0x37 (0x30 ||| KeypadModifier) true false).qtcode =
       keypadSwitch 71 ((0x30 ||| KeypadModifier) &&& (0xffffffff ^^^ modmask)) ∧
     (71 = 71 → (finishKey (mkHandler false false) 71 0x37 (0x30 ||| KeypadModifier) true false).qtcode = Key_Home)) ∧
    ((finishKey { mkHandler false false with m_locks1 := 1 } 71 0x37 (0x30 ||| KeypadModifier) true false).unicode = 0x37 ∧
     (finishKey { mkHandler false false with m_locks1 := 1 } 71 0x37 (0x30 ||| KeypadModifier) true false).qtcode =
       (0x30 ||| KeypadModifier) &&& (0xffffffff ^^^ modmask)) :=
  ⟨by decide,
   (C8_keypad_remap (mkHandler false false) 71 0x37 (0x30 ||| KeypadModifier) true false
      (by decide) (by decide)).1 (by decide),
   (C8_keypad_remap { mkHandler false false with m_locks1 := 1 } 71 0x37 (0x30 ||| KeypadModifier) true false
      (by decide) (by decide)).2 (by decide) (by decide)⟩

/-! ## C9: lock-key toggling -/

/-- Reading back the lock slot just written gives the written value. -/
theorem getLock_setLock (s : KbdState) (i w : Nat) : getLock (setLock s i w) i = w := by
  match i with
  | 0 => rfl
  | 1 => rfl
  | n + 2 => rfl

/-- Two states with equal lock fields agree on every lock read. -/
theorem getLock_congr (a b : KbdState)
    (h0 : a.m_locks0 = b.m_locks0) (h1 : a.m_locks1 = b.m_locks1)
    (h2 : a.m_locks2 = b.m_locks2) : ∀ j, getLock a j = getLock b j := by
  intro j
  match j with
  | 0 => exact h0
  | 1 => exact h1
  | n + 2 => exact h2

/-- Without a first press the compose-resolution block changes nothing
and does not absorb the event. -/
theorem composePhase_notfirst (st : KbdState) (it : Mapping) (p w : Option Mapping)
    (mods : Nat) (u q : Nat) :
    (composePhase st it p w mods false u q).st = st ∧
    (composePhase st it p w mods false u q).skip = false := by
  simp only [composePhase]
  rw [if_neg (show ¬(st.m_composing = 2 ∧ (false : Bool) = true ∧ it.flags &&& IsModifier = 0) from
        fun h => absurd h.2.1 (by decide)),
      if_neg (show ¬(st.m_composing = 1 ∧ (false : Bool) = true ∧ it.flags &&& IsModifier = 0) from
        fun h => absurd h.2.1 (by decide))]
  exact ⟨rfl, rfl⟩

/-- The action returned by processKeycode is always the dispatch-chain
action once a record is selected. -/
theorem processKeycode_action_eq (st : KbdState) (kc : Nat) (pressed autorepeat : Bool)
    (it : Mapping) (hsel : selectMap (lookupMaps st kc) = some it) :
    (processKeycode st kc pressed autorepeat).action =
      (dispatchSpecial st it pressed (pressed && !autorepeat)).action := by
  simp only [processKeycode, hsel]
  split <;> rfl

/-- When the dispatch chain does not absorb the event, the state returned
by processKeycode is the compose-phase state. -/
theorem processKeycode_state_eq (st : KbdState) (kc : Nat) (pressed autorepeat : Bool)
    (it : Mapping) (hsel : selectMap (lookupMaps st kc) = some it)
    (hskip : (dispatchSpecial st it pressed (pressed && !autorepeat)).skip = false) :
    (processKeycode st kc pressed autorepeat).state =
      (composePhase (dispatchSpecial st it pressed (pressed && !autorepeat)).st it
        (lookupMaps st kc).1 (lookupMaps st kc).2
        (reportedMods st (lookupMaps st kc).2) (pressed && !autorepeat)
        (dispatchSpecial st it pressed (pressed && !autorepeat)).unicode
        (dispatchSpecial st it pressed (pressed && !autorepeat)).qtcode).st := by
  simp only [processKeycode, hsel, hskip]
  rfl

/-- A genuine first press of a selected record in the lock range (not a
modifier record) returns the lock action of the toggled value, and the
lock flags of the new state are those of the state with that one lock
slot toggled. -/
theorem processKeycode_lock_first (st : KbdState) (kc : Nat) (it : Mapping)
    (hsel : selectMap (lookupMaps st kc) = some it)
    (hnmod : ¬(it.flags &&& IsModifier ≠ 0 ∧ it.special ≠ 0))
    (hlock : Key_CapsLock ≤ it.qtcode ∧ it.qtcode ≤ Key_ScrollLock) :
    (processKeycode st kc true false).action =
      lockAction it.qtcode (getLock st (it.qtcode - Key_CapsLock) ^^^ 1) ∧
    ∀ j, getLock (processKeycode st kc true false).state j =
      getLock (setLock st (it.qtcode - Key_CapsLock)
        (getLock st (it.qtcode - Key_CapsLock) ^^^ 1)) j := by
  have hd := dispatchSpecial_lock_first st it true hnmod hlock
  have hb : (true && !false) = true := rfl
  obtain ⟨f0, f1, f2, -, -, -⟩ := composePhase_frame
    (setLock st (it.qtcode - Key_CapsLock) (getLock st (it.qtcode - Key_CapsLock) ^^^ 1))
    it (lookupMaps st kc).1 (lookupMaps st kc).2
    (reportedMods st (lookupMaps st kc).2) true it.unicode it.qtcode
  refine ⟨?_, ?_⟩
  · rw [processKeycode_action_eq st kc true false it hsel, hb, hd]
  · have hst := processKeycode_state_eq st kc true false it hsel (by rw [hb, hd])
    rw [hb, hd] at hst
    dsimp only at hst
    intro j
    rw [hst]
    exact getLock_congr _ _ f0 f1 f2 j

/-- An autorepeat press of a selected record in the lock range (not a
modifier record) leaves the whole state unchanged and returns the None
action. -/
theorem processKeycode_lock_repeat (st : KbdState) (kc : Nat) (it : Mapping)
    (hsel : selectMap (lookupMaps st kc) = some it)
    (hnmod : ¬(it.flags &&& IsModifier ≠ 0 ∧ it.special ≠ 0))
    (hlock : Key_CapsLock ≤ it.qtcode ∧ it.qtcode ≤ Key_ScrollLock) :
    (processKeycode st kc true true).state = st ∧
    (processKeycode st kc true true).action = QKeycodeAction.None := by
  have hd := dispatchSpecial_lock_notfirst st it true hnmod hlock
  have hb : (true && !true) = false := rfl
  obtain ⟨hcst, hcskip⟩ := composePhase_notfirst st it (lookupMaps st kc).1 (lookupMaps st kc).2
    (reportedMods st (lookupMaps st kc).2) it.unicode it.qtcode
  refine ⟨?_, ?_⟩
  · have hst := processKeycode_state_eq st kc true true it hsel (by rw [hb, hd])
    rw [hb, hd] at hst
    dsimp only at hst
    rw [hst]
    exact hcst
  · rw [processKeycode_action_eq st kc true true it hsel, hb, hd]

/-- C9: for a selected lock-range record (and every starting state with a
well-formed 0/1 lock value), two genuine first presses of that key (the
second press again selecting a record with the same lock key code) return
the lock flag to its original value and the two calls return lock actions
of opposite polarity; an autorepeat press leaves the whole state
unchanged and returns no lock action. -/
theorem C9_lock_double_toggle (st : KbdState) (kc : Nat) (it it2 : Mapping)
    (hsel : selectMap (lookupMaps st kc) = some it)
    (hnmod : ¬(it.flags &&& IsModifier ≠ 0 ∧ it.special ≠ 0))
    (hlock : Key_CapsLock ≤ it.qtcode ∧ it.qtcode ≤ Key_ScrollLock)
    (hsel2 : selectMap (lookupMaps (processKeycode st kc true false).state kc) = some it2)
    (hnmod2 : ¬(it2.flags &&& IsModifier ≠ 0 ∧ it2.special ≠ 0))
    (hq2 : it2.qtcode = it.qtcode)
    (hl01 : getLock st (it.qtcode - Key_CapsLock) ≤ 1) :
    getLock (processKeycode (processKeycode st kc true false).state kc true false).state
        (it.qtcode - Key_CapsLock) = getLock st (it.qtcode - Key_CapsLock) ∧
    ((it.qtcode = Key_CapsLock →
       ((processKeycode st kc true false).action = QKeycodeAction.CapsLockOn ∧
        (processKeycode (processKeycode st kc true false).state kc true false).action =
          QKeycodeAction.CapsLockOff) ∨
       ((processKeycode st kc true false).action = QKeycodeAction.CapsLockOff ∧
        (processKeycode (processKeycode st kc true false).state kc true false).action =
          QKeycodeAction.CapsLockOn)) ∧
     (it.qtcode = Key_NumLock →
       ((processKeycode st kc true false).action = QKeycodeAction.NumLockOn ∧
        (processKeycode (processKeycode st kc true false).state kc true false).action =
          QKeycodeAction.NumLockOff) ∨
       ((processKeycode st kc true false).action = QKeycodeAction.NumLockOff ∧
        (processKeycode (processKeycode st kc true false).state kc true false).action =
          QKeycodeAction.NumLockOn)) ∧
     (it.qtcode = Key_ScrollLock →
       ((processKeycode st kc true false).action = QKeycodeAction.ScrollLockOn ∧
        (processKeycode (processKeycode st kc true false).state kc true false).action =
          QKeycodeAction.ScrollLockOff) ∨
       ((processKeycode st kc true false).action = QKeycodeAction.ScrollLockOff ∧
        (processKeycode (processKeycode st kc true false).state kc true false).action =
          QKeycodeAction.ScrollLockOn))) ∧
    ((processKeycode st kc true true).state = st ∧
     (processKeycode st kc true true).action = QKeycodeAction.None) := by
  obtain ⟨ha1, hs1⟩ := processKeycode_lock_first st kc it hsel hnmod hlock
  have hlock2 : Key_CapsLock ≤ it2.qtcode ∧ it2.qtcode ≤ Key_ScrollLock := by
    rw [hq2]; exact hlock
  obtain ⟨ha2, hs2⟩ := processKeycode_lock_first (processKeycode st kc true false).state kc it2
    hsel2 hnmod2 hlock2
  have hv1 : getLock (processKeycode st kc true false).state (it.qtcode - Key_CapsLock)
      = getLock st (it.qtcode - Key_CapsLock) ^^^ 1 := by
    rw [hs1 (it.qtcode - Key_CapsLock), getLock_setLock]
  have hidx : it2.qtcode - Key_CapsLock = it.qtcode - Key_CapsLock := by rw [hq2]
  have hv2 : getLock (processKeycode (processKeycode st kc true false).state kc true false).state
      (it.qtcode - Key_CapsLock)
      = (getLock st (it.qtcode - Key_CapsLock) ^^^ 1) ^^^ 1 := by
    have h := hs2 (it.qtcode - Key_CapsLock)
    rw [hidx] at h
    rw [h, getLock_setLock, hv1]
  have ha2x : (processKeycode (processKeycode st kc true false).state kc true false).action
      = lockAction it.qtcode ((getLock st (it.qtcode - Key_CapsLock) ^^^ 1) ^^^ 1) := by
    rw [ha2, hq2, hv1]
  refine ⟨?_, ⟨?_, ?_, ?_⟩, processKeycode_lock_repeat st kc it hsel hnmod hlock⟩
  · rw [hv2, Nat.xor_assoc, Nat.xor_self, Nat.xor_zero]
  · intro hq
    rcases Nat.le_one_iff_eq_zero_or_eq_one.mp hl01 with hv | hv
    · exact Or.inl ⟨by rw [ha1, hv, hq]; decide, by rw [ha2x, hv, hq]; decide⟩
    · exact Or.inr ⟨by rw [ha1, hv, hq]; decide, by rw [ha2x, hv, hq]; decide⟩
  · intro hq
    rcases Nat.le_one_iff_eq_zero_or_eq_one.mp hl01 with hv | hv
    · exact Or.inl ⟨by rw [ha1, hv, hq]; decide, by rw [ha2x, hv, hq]; decide⟩
    · exact Or.inr ⟨by rw [ha1, hv, hq]; decide, by rw [ha2x, hv, hq]; decide⟩
  · intro hq
    rcases Nat.le_one_iff_eq_zero_or_eq_one.mp hl01 with hv | hv
    · exact Or.inl ⟨by rw [ha1, hv, hq]; decide, by rw [ha2x, hv, hq]; decide⟩
    · exact Or.inr ⟨by rw [ha1, hv, hq]; decide, by rw [ha2x, hv, hq]; decide⟩

/-- C9 witness: two first presses of the concrete CapsLock record toggle
the lock on then off and restore the flag; an autorepeat press is a
no-op. -/
theorem C9_witness :
    (processKeycode capsState 58 true false).action = QKeycodeAction.CapsLockOn ∧
    (processKeycode (processKeycode capsState 58 true false).state 58 true false).action =
      QKeycodeAction.CapsLockOff ∧
    getLock (processKeycode (processKeycode capsState 58 true false).state 58 true false).state 0 = 0 ∧
    (processKeycode capsState 58 true true).state = capsState ∧
    (processKeycode capsState 58 true true).action = QKeycodeAction.None := by
  have h := C9_lock_double_toggle capsState 58
    ⟨58, 0xffff, Key_CapsLock, 0, 0, 0⟩ ⟨58, 0xffff, Key_CapsLock, 0, 0, 0⟩
    (by decide) (by decide) (by decide) (by decide) (by decide) (by decide) (by decide)
  obtain h1 | h1 := h.2.1.1 rfl
  · exact ⟨h1.1, h1.2, h.1, h.2.2.1, h.2.2.2⟩
  · exact absurd h1.1 (by decide)

end VxKbd
